import Mathlib

/-!
# Verification of the mangata-finalizer configuration and credential resolver

Shallow embedding of `src/mangata-finalizer/src/cli.rs`: the clap-derived
`CliArgs` record with its two mutually-exclusive key groups, the
`CliArgs::build` network gate, and the `get_keystore` credential resolver.
The keystore provider (`EncodedKeystore::random/from_path/from_string`) is an
external collaborator; the resolver is embedded symbolically as the exact
external call it performs, and a provider-parameterised runner recovers the
`Result`-valued behaviour of the Rust function.
-/

namespace MangataFinalizer

/-- The subcommand enum `Commands` from cli.rs (lines 78-87).
`Testnet` carries its `stake: u32` field (clap default 100). -/
inductive Commands where
  | OptInAvs : Commands
  | OptOutAvs : Commands
  | PrintStatus : Commands
  | Testnet (stake : Nat) : Commands
deriving DecidableEq, Repr

/-- The `EcdsaKey` argument group (cli.rs lines 52-63).
`PathBuf` is embedded as `String`. The clap attribute
`#[group(required = true, multiple = false)]` constrains which combinations
parse; the record itself holds the three fields as in the source. -/
structure EcdsaKey where
  ecdsa_key_file : Option String
  ecdsa_key_json : Option String
  ecdsa_ephemeral_key : Bool
deriving DecidableEq, Repr

/-- The `BlsKey` argument group (cli.rs lines 65-76), same shape as `EcdsaKey`. -/
structure BlsKey where
  bls_key_file : Option String
  bls_key_json : Option String
  bls_ephemeral_key : Bool
deriving DecidableEq, Repr

/-- The parsed `CliArgs` record (cli.rs lines 10-50). `Address` (an
ethers H160) is embedded as `Nat`; URLs as `String`; `chain_id: u64` as `Nat`. -/
structure CliArgs where
  avs_service_manager_addr : Nat
  bls_compendium_addr : Nat
  bls_operator_state_retriever_addr : Nat
  substrate_rpc_url : String
  eth_rpc_url : String
  eth_ws_url : String
  avs_rpc_url : String
  chain_id : Nat
  ecdsa_key : EcdsaKey
  ecdsa_key_password : Option String
  bls_key : BlsKey
  bls_key_password : Option String
  register_at_startup : Bool
  command : Option Commands
deriving DecidableEq, Repr

/-- `Chain::AnvilHardhat as u64` from the ethers `Chain` enum: 31337. -/
def anvilHardhatChainId : Nat := 31337

/-- The external call a single run of `get_keystore` (cli.rs lines 126-139)
performs on the `EncodedKeystore` collaborator, with the exact arguments
passed at the call site. -/
inductive KeystoreCall where
  | random : KeystoreCall
  | from_path (path : String) (password : Option String) : KeystoreCall
  | from_string (content : String) (password : Option String) : KeystoreCall
deriving DecidableEq, Repr

/-- `get_keystore` (cli.rs lines 126-139), embedded symbolically: the Rust
`match (path, content, is_random)` selects which `EncodedKeystore`
constructor to invoke and with which arguments. `none` is the
`panic!("one of the key args must be set")` arm. The Rust body then only
applies `?` to the provider's result and returns it, so this call value
determines the function's behaviour completely (see `get_keystore`). -/
def get_keystore_call (path : Option String) (content : Option String)
    (is_random : Bool) (password : Option String) : Option KeystoreCall :=
  match path, content, is_random with
  | _, _, true => some KeystoreCall.random
  | some p, _, _ => some (KeystoreCall.from_path p password)
  | _, some c, _ => some (KeystoreCall.from_string c password)
  | _, _, _ => none

/-- The external keystore collaborator interface (spec §6): `random()`,
`from_path(path, password)`, `from_string(content, password)`, each
fallible. `K` is the opaque keystore handle type, `E` the error type
(`eyre::Report` in the source). -/
structure KeystoreProvider (K E : Type) where
  random : Except E K
  from_path : String → Option String → Except E K
  from_string : String → Option String → Except E K

/-- Dispatch one recorded call to a concrete provider. -/
def runCall {K E : Type} (P : KeystoreProvider K E) : KeystoreCall → Except E K
  | KeystoreCall.random => P.random
  | KeystoreCall.from_path p pw => P.from_path p pw
  | KeystoreCall.from_string c pw => P.from_string c pw

/-- `get_keystore` with a concrete provider: the selected arm's provider
result is returned through `?`/`Ok` unchanged; `none` is the panic arm. -/
def get_keystore {K E : Type} (P : KeystoreProvider K E)
    (path : Option String) (content : Option String)
    (is_random : Bool) (password : Option String) : Option (Except E K) :=
  (get_keystore_call path content is_random password).map (runCall P)

/-- `CliArgs::get_ecdsa_keystore` (cli.rs lines 108-115): the call made for
the ECDSA key group. -/
def CliArgs.get_ecdsa_keystore_call (a : CliArgs) : Option KeystoreCall :=
  get_keystore_call a.ecdsa_key.ecdsa_key_file a.ecdsa_key.ecdsa_key_json
    a.ecdsa_key.ecdsa_ephemeral_key a.ecdsa_key_password

/-- `CliArgs::get_bls_keystore` (cli.rs lines 116-123): the call made for
the BLS key group. -/
def CliArgs.get_bls_keystore_call (a : CliArgs) : Option KeystoreCall :=
  get_keystore_call a.bls_key.bls_key_file a.bls_key.bls_key_json
    a.bls_key.bls_ephemeral_key a.bls_key_password

/-- Outcome of `CliArgs::build` (cli.rs lines 89-106): either the process
exits via `cmd.error(..).exit()` with a usage-style diagnostic (clap exits
non-zero), or the parsed args are returned, with `warned` recording whether
the `warn!` line fired. -/
inductive BuildOutcome where
  | exitUsageError (msg : String) : BuildOutcome
  | ok (warned : Bool) (args : CliArgs) : BuildOutcome
deriving DecidableEq, Repr

/-- `CliArgs::build` (cli.rs lines 89-106) after parsing: the network gate.
If `chain_id` differs from `Chain::AnvilHardhat` then a `Testnet` command
exits with a usage error; otherwise an ephemeral key in either group emits
the warning; the args are returned. -/
def CliArgs.build (args : CliArgs) : BuildOutcome :=
  if args.chain_id ≠ anvilHardhatChainId then
    match args.command with
    | some (Commands.Testnet _) =>
        BuildOutcome.exitUsageError
          "testnet command is only available with anvil testnet `--chain-id=31337`"
    | _ =>
        BuildOutcome.ok
          (args.ecdsa_key.ecdsa_ephemeral_key || args.bls_key.bls_ephemeral_key)
          args
  else
    BuildOutcome.ok false args

/-- Clap argument-group semantics for `#[group(required = true,
multiple = false)]` on `EcdsaKey` and `BlsKey` (cli.rs lines 53 and 66):
parsing succeeds iff at least one (`required = true`) and at most one
(`multiple = false`) of the group's three arguments was supplied on the
command line / environment. Each `Bool` records whether the corresponding
argument was supplied. -/
def keyGroupParseOk (file_given json_given ephemeral_given : Bool) : Bool :=
  ((if file_given then 1 else 0) + (if json_given then 1 else 0) +
    (if ephemeral_given then 1 else 0)) == 1

/-- Resolver decision order written from the spec's words (§4.2, steps 1-4):
1. ephemeral flag → random; 2. else file path → load from path with the
supplied password; 3. else inline content → parse the string with the
supplied password; 4. else → internal-consistency failure. Used only to be
compared with `get_keystore_call`, which is transcribed from the source. -/
def specResolveOrder (path : Option String) (content : Option String)
    (is_random : Bool) (password : Option String) : Option KeystoreCall :=
  if is_random then
    some KeystoreCall.random
  else
    match path with
    | some p => some (KeystoreCall.from_path p password)
    | none =>
        match content with
        | some c => some (KeystoreCall.from_string c password)
        | none => none

/-- A serialized value in the serde output model. `obj` is a nested
struct. -/
inductive SerValue where
  | str (s : String) : SerValue
  | nat (n : Nat) : SerValue
  | bool (b : Bool) : SerValue
  | cmd (c : Commands) : SerValue
  | obj (fields : List (String × SerValue)) : SerValue

/-- Serde output of `#[derive(Serialize)]` on `EcdsaKey` (cli.rs lines
52-63): `ecdsa_key_file` carries `#[serde(skip_serializing_if =
"Option::is_none")]`, `ecdsa_key_json` carries `#[serde(skip)]` and is
never emitted, `ecdsa_ephemeral_key` is emitted plainly. -/
def EcdsaKey.serialize (k : EcdsaKey) : List (String × SerValue) :=
  (match k.ecdsa_key_file with
   | some p => [("ecdsa_key_file", SerValue.str p)]
   | none => []) ++
  [("ecdsa_ephemeral_key", SerValue.bool k.ecdsa_ephemeral_key)]

/-- Serde output of `#[derive(Serialize)]` on `BlsKey` (cli.rs lines
65-76), same attribute layout as `EcdsaKey`. -/
def BlsKey.serialize (k : BlsKey) : List (String × SerValue) :=
  (match k.bls_key_file with
   | some p => [("bls_key_file", SerValue.str p)]
   | none => []) ++
  [("bls_ephemeral_key", SerValue.bool k.bls_ephemeral_key)]

/-- Serde output of `#[derive(Serialize)]` on `CliArgs` (cli.rs lines
10-50), field by field in declaration order: the addresses, URLs and
`chain_id` are emitted plainly; `ecdsa_key` and `bls_key` are emitted as
nested structs; `ecdsa_key_password` and `bls_key_password` carry
`#[serde(skip)]` and are never emitted; `command` carries
`#[serde(skip_serializing_if = "Option::is_none")]`. -/
def CliArgs.serialize (a : CliArgs) : List (String × SerValue) :=
  [("avs_service_manager_addr", SerValue.nat a.avs_service_manager_addr),
   ("bls_compendium_addr", SerValue.nat a.bls_compendium_addr),
   ("bls_operator_state_retriever_addr",
     SerValue.nat a.bls_operator_state_retriever_addr),
   ("substrate_rpc_url", SerValue.str a.substrate_rpc_url),
   ("eth_rpc_url", SerValue.str a.eth_rpc_url),
   ("eth_ws_url", SerValue.str a.eth_ws_url),
   ("avs_rpc_url", SerValue.str a.avs_rpc_url),
   ("chain_id", SerValue.nat a.chain_id),
   ("ecdsa_key", SerValue.obj a.ecdsa_key.serialize),
   ("bls_key", SerValue.obj a.bls_key.serialize),
   ("register_at_startup", SerValue.bool a.register_at_startup)] ++
  (match a.command with
   | some c => [("command", SerValue.cmd c)]
   | none => [])

/-- C1: `get_keystore` dispatches by the fixed priority order of the spec
(ephemeral first, then file path, then inline content, else the internal
failure), for every combination of inputs, including over-populated ones:
the source transcription agrees with the spec-order resolver everywhere. -/
theorem C1_dispatch_priority_order (path content : Option String)
    (is_random : Bool) (password : Option String) :
    get_keystore_call path content is_random password =
      specResolveOrder path content is_random password := by
  cases path <;> cases content <;> cases is_random <;> rfl

/-- C2: the clap key-group check passes exactly when one of the three
sources is supplied; with zero supplied or with two or more supplied it
fails, so configuration build stops at parse time. -/
theorem C2_key_group_exactly_one (file_given json_given ephemeral_given : Bool) :
    keyGroupParseOk file_given json_given ephemeral_given = true ↔
      ((file_given = true ∧ json_given = false ∧ ephemeral_given = false) ∨
       (file_given = false ∧ json_given = true ∧ ephemeral_given = false) ∨
       (file_given = false ∧ json_given = false ∧ ephemeral_given = true)) := by
  cases file_given <;> cases json_given <;> cases ephemeral_given <;> decide

/-- C3: with chain id different from 31337, a `Testnet` command makes
`build` exit with the usage-style diagnostic (and no keystore call is ever
made, since the exit outcome carries none); with chain id 31337 the
`Testnet` command is accepted and `build` returns the configuration. -/
theorem C3_testnet_network_gate (args : CliArgs) (stake : Nat) :
    (args.chain_id ≠ anvilHardhatChainId →
      args.command = some (Commands.Testnet stake) →
      args.build = BuildOutcome.exitUsageError
        "testnet command is only available with anvil testnet `--chain-id=31337`") ∧
    (args.chain_id = anvilHardhatChainId →
      args.build = BuildOutcome.ok false args) := by
  constructor
  · intro hne hcmd
    simp [CliArgs.build, hne, hcmd]
  · intro heq
    simp [CliArgs.build, heq]

/-- C4: the resolver reaches the panic arm exactly when all three sources
are absent; whenever the key group supplied exactly one source, the panic
arm is unreachable. -/
theorem C4_panic_iff_all_absent (path content : Option String)
    (is_random : Bool) (password : Option String) :
    (get_keystore_call path content is_random password = none ↔
      path = none ∧ content = none ∧ is_random = false) ∧
    (keyGroupParseOk path.isSome content.isSome is_random = true →
      get_keystore_call path content is_random password ≠ none) := by
  cases path <;> cases content <;> cases is_random <;>
    simp [get_keystore_call, keyGroupParseOk]

/-- C5: with the ephemeral flag set, the resolver always performs the
bare `random()` call, so its outcome is independent of the password and of
any path or inline content also present: two invocations differing only in
those inputs coincide. -/
theorem C5_ephemeral_ignores_password_path_content
    (path₁ content₁ password₁ path₂ content₂ password₂ : Option String) :
    get_keystore_call path₁ content₁ true password₁ = some KeystoreCall.random ∧
    get_keystore_call path₁ content₁ true password₁ =
      get_keystore_call path₂ content₂ true password₂ := by
  cases path₁ <;> cases content₁ <;> cases path₂ <;> cases content₂ <;>
    exact ⟨rfl, rfl⟩

/-- C6: with a file path present and the ephemeral flag false, the
resolver performs only the `from_path` call — even when inline content is
also present — and an error from that call is returned to the caller
unchanged. -/
theorem C6_file_strategy_error_propagates {K E : Type}
    (P : KeystoreProvider K E) (p : String) (content : Option String)
    (password : Option String) (e : E)
    (h : P.from_path p password = Except.error e) :
    get_keystore_call (some p) content false password =
      some (KeystoreCall.from_path p password) ∧
    get_keystore P (some p) content false password =
      some (Except.error e) := by
  constructor
  · cases content <;> rfl
  · cases content <;> simp [get_keystore, get_keystore_call, runCall, h]

/-- Witness provider for C6: `from_path` always fails with error 7. -/
def failingPathProvider : KeystoreProvider Nat Nat where
  random := Except.ok 0
  from_path := fun _ _ => Except.error 7
  from_string := fun _ _ => Except.ok 0

/-- C6 witness: a concrete provider whose `from_path` fails, evaluated at
a group that also has inline content present. -/
theorem C6_file_strategy_error_propagates_witness :
    get_keystore_call (some "ecdsa.json") (some "inline-key") false
      (some "wrong-password") =
      some (KeystoreCall.from_path "ecdsa.json" (some "wrong-password")) ∧
    get_keystore failingPathProvider (some "ecdsa.json") (some "inline-key")
      false (some "wrong-password") = some (Except.error 7) :=
  C6_file_strategy_error_propagates failingPathProvider "ecdsa.json"
    (some "inline-key") (some "wrong-password") 7 rfl

/-- With the ephemeral flag set, the resolver performs the `random()` call
whatever the other inputs are (first arm of the Rust match). -/
theorem get_keystore_call_of_random (path content : Option String)
    (password : Option String) :
    get_keystore_call path content true password = some KeystoreCall.random := by
  cases path <;> cases content <;> rfl

/-- A concrete configuration on a non-anvil chain (chain id 1) with the
`Testnet` subcommand selected and an ephemeral ECDSA key group. -/
def testnetArgs : CliArgs where
  avs_service_manager_addr := 1
  bls_compendium_addr := 2
  bls_operator_state_retriever_addr := 3
  substrate_rpc_url := "ws://localhost:9944"
  eth_rpc_url := "http://localhost:8545"
  eth_ws_url := "ws://localhost:8545"
  avs_rpc_url := "http://localhost:8546"
  chain_id := 1
  ecdsa_key := ⟨none, none, true⟩
  ecdsa_key_password := none
  bls_key := ⟨some "bls.json", none, false⟩
  bls_key_password := some "pw"
  register_at_startup := false
  command := some (Commands.Testnet 100)

/-- A concrete configuration on the anvil chain (31337) with the `Testnet`
subcommand selected. -/
def anvilArgs : CliArgs where
  avs_service_manager_addr := 1
  bls_compendium_addr := 2
  bls_operator_state_retriever_addr := 3
  substrate_rpc_url := "ws://localhost:9944"
  eth_rpc_url := "http://localhost:8545"
  eth_ws_url := "ws://localhost:8545"
  avs_rpc_url := "http://localhost:8546"
  chain_id := anvilHardhatChainId
  ecdsa_key := ⟨some "ecdsa.json", none, false⟩
  ecdsa_key_password := some "pw"
  bls_key := ⟨some "bls.json", none, false⟩
  bls_key_password := some "pw"
  register_at_startup := true
  command := some (Commands.Testnet 100)

/-- A concrete configuration on a non-anvil chain (chain id 5) with no
subcommand and an ephemeral ECDSA key group. -/
def warnArgs : CliArgs where
  avs_service_manager_addr := 1
  bls_compendium_addr := 2
  bls_operator_state_retriever_addr := 3
  substrate_rpc_url := "ws://localhost:9944"
  eth_rpc_url := "http://localhost:8545"
  eth_ws_url := "ws://localhost:8545"
  avs_rpc_url := "http://localhost:8546"
  chain_id := 5
  ecdsa_key := ⟨none, none, true⟩
  ecdsa_key_password := none
  bls_key := ⟨some "bls.json", none, false⟩
  bls_key_password := some "pw"
  register_at_startup := false
  command := none

/-- C2 witness: a group with only the file argument supplied parses. -/
theorem C2_key_group_exactly_one_witness :
    keyGroupParseOk true false false = true :=
  (C2_key_group_exactly_one true false false).mpr (Or.inl ⟨rfl, rfl, rfl⟩)

/-- C3 witness: the gate at chain id 1 with the `Testnet` command exits,
and at chain id 31337 the same command is accepted. -/
theorem C3_testnet_network_gate_witness :
    testnetArgs.build = BuildOutcome.exitUsageError
      "testnet command is only available with anvil testnet `--chain-id=31337`" ∧
    anvilArgs.build = BuildOutcome.ok false anvilArgs :=
  ⟨(C3_testnet_network_gate testnetArgs 100).1 (by decide) rfl,
   (C3_testnet_network_gate anvilArgs 100).2 rfl⟩

/-- C4 witness: with all sources absent the resolver panics; with the
ephemeral flag as the single populated source it does not. -/
theorem C4_panic_iff_all_absent_witness :
    get_keystore_call none none false none = none ∧
    get_keystore_call none none true none ≠ none :=
  ⟨(C4_panic_iff_all_absent none none false none).1.2 ⟨rfl, rfl, rfl⟩,
   (C4_panic_iff_all_absent none none true none).2 (by decide)⟩

/-- C7 counterexample: `testnetArgs` has chain id ≠ 31337 and an ephemeral
ECDSA key group, yet `build` exits with the usage error instead of
returning the configuration with a warning: the `Testnet` check fires
first, so the claim fails as stated over all configurations. -/
theorem C7_counterexample_testnet_preempts_warning :
    testnetArgs.chain_id ≠ anvilHardhatChainId ∧
    testnetArgs.ecdsa_key.ecdsa_ephemeral_key = true ∧
    testnetArgs.build ≠ BuildOutcome.ok true testnetArgs ∧
    testnetArgs.build = BuildOutcome.exitUsageError
      "testnet command is only available with anvil testnet `--chain-id=31337`" :=
  ⟨by decide, rfl, by decide, rfl⟩

/-- C7 (amended): for every configuration whose chain id is not 31337,
whose command is not the `Testnet` subcommand, and where either key group
selected the ephemeral source, `build` returns the configuration with the
warning emitted, and resolution of an ephemeral group still proceeds to
the random-generation strategy. -/
theorem C7_ephemeral_warning_not_fatal (args : CliArgs)
    (hchain : args.chain_id ≠ anvilHardhatChainId)
    (hcmd : ∀ stake, args.command ≠ some (Commands.Testnet stake))
    (heph : args.ecdsa_key.ecdsa_ephemeral_key = true ∨
      args.bls_key.bls_ephemeral_key = true) :
    args.build = BuildOutcome.ok true args ∧
    (args.ecdsa_key.ecdsa_ephemeral_key = true →
      args.get_ecdsa_keystore_call = some KeystoreCall.random) ∧
    (args.bls_key.bls_ephemeral_key = true →
      args.get_bls_keystore_call = some KeystoreCall.random) := by
  refine ⟨?_, ?_, ?_⟩
  · cases hc : args.command with
    | none => rcases heph with h | h <;> simp [CliArgs.build, hchain, hc, h]
    | some c =>
        cases c with
        | OptInAvs => rcases heph with h | h <;> simp [CliArgs.build, hchain, hc, h]
        | OptOutAvs => rcases heph with h | h <;> simp [CliArgs.build, hchain, hc, h]
        | PrintStatus => rcases heph with h | h <;> simp [CliArgs.build, hchain, hc, h]
        | Testnet stake => exact absurd hc (hcmd stake)
  · intro h
    simp [CliArgs.get_ecdsa_keystore_call, h, get_keystore_call_of_random]
  · intro h
    simp [CliArgs.get_bls_keystore_call, h, get_keystore_call_of_random]

/-- C7 witness: `warnArgs` (chain id 5, no subcommand, ephemeral ECDSA
group) builds with the warning and its ECDSA resolution is the random
strategy. -/
theorem C7_ephemeral_warning_not_fatal_witness :
    warnArgs.build = BuildOutcome.ok true warnArgs ∧
    warnArgs.get_ecdsa_keystore_call = some KeystoreCall.random :=
  ⟨(C7_ephemeral_warning_not_fatal warnArgs (by decide)
      (fun _ h => Option.noConfusion h) (Or.inl rfl)).1,
   (C7_ephemeral_warning_not_fatal warnArgs (by decide)
      (fun _ h => Option.noConfusion h) (Or.inl rfl)).2.1 rfl⟩

/-- C8: for the file-path and inline-content strategies the password
argument reaches the provider call exactly as supplied (for every
password, including the absent one), never synthesized or substituted. -/
theorem C8_password_passed_unmodified (p c : String)
    (content : Option String) (password : Option String) :
    get_keystore_call (some p) content false password =
      some (KeystoreCall.from_path p password) ∧
    get_keystore_call none (some c) false password =
      some (KeystoreCall.from_string c password) := by
  cases content <;> exact ⟨rfl, rfl⟩

/-- C9: serialization of the configuration is independent of the two
password fields (`#[serde(skip)]`): two configurations differing only in
passwords serialize identically. -/
theorem C9_passwords_not_serialized (a : CliArgs)
    (pw₁ pw₂ qw₁ qw₂ : Option String) :
    CliArgs.serialize { a with ecdsa_key_password := pw₁, bls_key_password := qw₁ } =
    CliArgs.serialize { a with ecdsa_key_password := pw₂, bls_key_password := qw₂ } :=
  rfl

/-- C10: serialization is also independent of the inline key blobs
`ecdsa_key_json` and `bls_key_json` (`#[serde(skip)]`): two configurations
differing only in inline key content serialize identically. -/
theorem C10_inline_key_json_not_serialized (a : CliArgs)
    (j₁ j₂ b₁ b₂ : Option String) :
    CliArgs.serialize { a with
        ecdsa_key := { a.ecdsa_key with ecdsa_key_json := j₁ },
        bls_key := { a.bls_key with bls_key_json := b₁ } } =
    CliArgs.serialize { a with
        ecdsa_key := { a.ecdsa_key with ecdsa_key_json := j₂ },
        bls_key := { a.bls_key with bls_key_json := b₂ } } :=
  rfl

end MangataFinalizer
